import Mathlib

/-!
Verification development for a hybrid RAG question-answering service.
The Python sources (intent classifier, query router, cache policy, vector
retriever wrapper, RAG assembler, web-search wrapper, structured-data client
and pooled database scope) are embedded shallowly below; external
collaborators (language model, search engine, relational store, embedder)
are passed in as explicit function parameters.
-/

namespace LlmRag

/-! ### Python string primitives used by the sources -/

/-- Python `str.lower()` as the character-wise case mapping. -/
def pyLower (s : String) : String := ⟨s.data.map Char.toLower⟩

/-- Python `str.upper()` as the character-wise case mapping. -/
def pyUpper (s : String) : String := ⟨s.data.map Char.toUpper⟩

/-- Contiguous-run containment on character lists: `listContains pat hay`
    is true iff `pat` occurs contiguously inside `hay`. -/
def listContains (pat : List Char) : List Char → Bool
  | [] => pat.isEmpty
  | c :: t => pat.isPrefixOf (c :: t) || listContains pat t

/-- Python substring containment `pat in hay`. -/
def strContains (hay pat : String) : Bool := listContains pat.data hay.data

/-- Python `hay.startswith(pre)`. -/
def strStartsWith (hay pre : String) : Bool := pre.data.isPrefixOf hay.data

/-- Python whitespace class used by `str.strip()`. -/
def isPySpace (c : Char) : Bool :=
  c = ' ' || c = '\t' || c = '\n' || c = '\r' || c = '\x0b' || c = '\x0c'

/-- Python `s.strip()`: drop whitespace from both ends. -/
def pyStrip (s : String) : String :=
  ⟨((s.data.dropWhile isPySpace).reverse.dropWhile isPySpace).reverse⟩

/-- Python `sep.join(xs)`. -/
def joinSep (sep : String) : List String → String
  | [] => ""
  | [x] => x
  | x :: xs => x ++ sep ++ joinSep sep xs

/-- Helper for splitting on the newline character, accumulator reversed. -/
def splitLinesAux : List Char → List Char → List (List Char)
  | acc, [] => [acc.reverse]
  | acc, c :: t =>
    if c = '\n' then acc.reverse :: splitLinesAux [] t
    else splitLinesAux (c :: acc) t

/-- Python `s.split("\n")`. -/
def pySplitLines (s : String) : List String :=
  (splitLinesAux [] s.data).map (fun l => ⟨l⟩)

/-! ### Word-boundary regular-expression search -/

/-- The regex word-character class, as used by the boundary assertion. -/
def isWordChar (c : Char) : Bool := c.isAlphanum || c = '_'

/-- A word boundary holds after a match ending here: end of input or a
    non-word character next. -/
def boundaryAfter (s : List Char) : Bool :=
  match s with
  | [] => true
  | c :: _ => !isWordChar c

/-- Scan for a boundary-delimited occurrence of `pat`; `prevIsWord` records
    whether the character just before the scan position is a word character. -/
def wbSearchAux (pat : List Char) : Bool → List Char → Bool
  | prevIsWord, [] => !prevIsWord && pat.isEmpty
  | prevIsWord, c :: t =>
    (!prevIsWord && pat.isPrefixOf (c :: t) && boundaryAfter ((c :: t).drop pat.length))
      || wbSearchAux pat (isWordChar c) t

/-- Python regex search for a literal pattern wrapped in word boundaries. -/
def wbSearch (s pat : String) : Bool := wbSearchAux pat.data false s.data

/-! ### Intent classifier (src/mcp/intent_classifier.py) -/

/-- Temporal keywords of `is_live_question`; `year` and `month` stand for the
    strftime year and month strings of the invocation date. -/
def temporal_keywords (year month : String) : List String :=
  ["today", "now", "current", "latest", "recent", "yesterday", "this week",
   "this month", "this year", "trending", "breaking", "live", "real-time",
   year, month]

/-- Live-topic keywords of `is_live_question`. -/
def live_topics : List String :=
  ["news", "weather", "stock", "price", "election", "covid", "pandemic",
   "sports score", "match result", "currency rate", "exchange rate", "update"]

/-- Future-tense literal patterns of `is_live_question`, matched wrapped in
    word boundaries. -/
def future_patterns : List String :=
  ["will", "going to", "forecast", "predict", "expect"]

/-- `is_live_question`: temporal keywords, live topics, or future tense. -/
def is_live_question (year month : String) (question : String) : Bool :=
  let ql := pyLower question
  (temporal_keywords year month).any (fun k => strContains ql k)
    || live_topics.any (fun k => strContains ql k)
    || future_patterns.any (fun p => wbSearch ql p)

/-- Entity keywords of `is_student_question`. -/
def student_keywords : List String :=
  ["student", "students", "enrollment", "enrolled", "course", "courses",
   "class", "classes", "grade", "grades", "gpa", "learner", "learners",
   "pupil", "pupils", "undergraduate", "graduate", "major", "minor"]

/-- Operation phrases of `is_student_question`. -/
def student_operations : List String :=
  ["add student", "create student", "new student", "register student",
   "enroll student", "delete student", "remove student", "update student",
   "modify student", "edit student", "list student", "show student",
   "find student", "search student", "get student", "how many student",
   "count student", "average age", "who is enrolled", "who is taking",
   "who studies"]

/-- `is_student_question`: any student keyword or operation phrase occurs
    in the lowercased question. -/
def is_student_question (question : String) : Bool :=
  let ql := pyLower question
  student_keywords.any (fun k => strContains ql k)
    || student_operations.any (fun k => strContains ql k)

/-- Domain (crime) keywords of `is_domain_question`. -/
def domain_keywords : List String :=
  ["crime", "criminal", "incident", "offense", "arrest", "robbery", "theft",
   "assault", "burglary", "homicide", "violation", "suspect", "victim",
   "report", "police", "investigation", "felony", "misdemeanor", "los angeles"]

/-- `is_domain_question`: any domain keyword occurs in the lowercased
    question. -/
def is_domain_question (question : String) : Bool :=
  let ql := pyLower question
  domain_keywords.any (fun k => strContains ql k)

/-- `classify_intent`: first-match-wins priority chain
    student, web, rag, general. -/
def classify_intent (year month : String) (question : String) : String :=
  if is_student_question question then "student"
  else if is_live_question year month question then "web"
  else if is_domain_question question then "rag"
  else "general"

/-- C1: a question whose lowercased text contains a term of the structured
    (student) lexicon is classified "student" regardless of co-occurring
    Live or Domain keywords: the Structured check runs first and wins. -/
theorem classify_structured_priority (year month question : String)
    (h : (student_keywords ++ student_operations).any
      (fun k => strContains (pyLower question) k) = true) :
    classify_intent year month question = "student" := by
  have hs : is_student_question question = true := by
    simpa [is_student_question, List.any_append, Bool.or_eq_true] using h
  simp [classify_intent, hs]

/-- Witness for C1 at a question that also contains Live ("today") and
    Domain ("crime", "victim") keywords. -/
theorem classify_structured_priority_witness :
    ((student_keywords ++ student_operations).any
      (fun k => strContains (pyLower "How many students were crime victims today") k) = true)
    ∧ classify_intent "2026" "October" "How many students were crime victims today" = "student" :=
  ⟨by decide, classify_structured_priority "2026" "October" _ (by decide)⟩

/-! ### Retriever (src/vector_store.py) -/

/-- A retrieved passage: text, dissimilarity score, 1-based rank.
    Distances are carried as integers (exact squared L2 over integer
    vectors) in place of the floating-point scores of the source. -/
structure RetrievedPassage where
  text : String
  distance : Int
  rank : Nat
deriving Repr, DecidableEq, Inhabited

/-- Squared L2 distance between two integer vectors. -/
def sqDist (u v : List Int) : Int :=
  ((u.zip v).map (fun p => (p.1 - p.2) * (p.1 - p.2))).sum

/-- Pair each distance with its corpus position, starting at `i`. -/
def indexPairs : Nat → List Int → List (Int × Nat)
  | _, [] => []
  | i, d :: t => (d, i) :: indexPairs (i + 1) t

/-- Comparison on (distance, corpus index) pairs by distance. -/
def distLe (p q : Int × Nat) : Prop := p.1 ≤ q.1

instance : DecidableRel distLe := fun p q => Int.decLe p.1 q.1

instance : IsTotal (Int × Nat) distLe := ⟨fun a b => le_total a.1 b.1⟩

instance : IsTrans (Int × Nat) distLe := ⟨fun _ _ _ h₁ h₂ => le_trans h₁ h₂⟩

/-- Modelled from the spec: the vector index (`faiss.IndexFlatL2.search`) is
    an external collaborator, an opaque exact L2 nearest-neighbor search
    structure; it returns the `min k n` nearest corpus vectors as
    (distance, corpus index) pairs ordered by ascending distance. -/
def knnSearch (corpus : List (List Int)) (qv : List Int) (k : Nat) : List (Int × Nat) :=
  (List.insertionSort distLe (indexPairs 0 (corpus.map (sqDist qv)))).take k

/-- The result-building loop of `search_similar`: one passage per returned
    (distance, index) pair, rank = loop position + 1, text looked up in the
    parallel text list. -/
def buildResults (texts : List String) : Nat → List (Int × Nat) → List RetrievedPassage
  | _, [] => []
  | i, (d, idx) :: rest =>
    { text := texts.getD idx "", distance := d, rank := i + 1 }
      :: buildResults texts (i + 1) rest

/-- `search_similar` after the query has been embedded: run the index search
    and assemble passages. -/
def search_similar_core (texts : List String) (corpus : List (List Int))
    (qv : List Int) (top_k : Nat) : List RetrievedPassage :=
  buildResults texts 0 (knnSearch corpus qv top_k)

/-- `search_similar(query, top_k)`: embed the query once via the embedder
    collaborator, then search; an embedder failure propagates. -/
def search_similar (embed : String → Except String (List Int))
    (texts : List String) (corpus : List (List Int))
    (query : String) (top_k : Nat) : Except String (List RetrievedPassage) :=
  (embed query).map (fun qv => search_similar_core texts corpus qv top_k)

theorem length_indexPairs (i : Nat) (l : List Int) :
    (indexPairs i l).length = l.length := by
  induction l generalizing i with
  | nil => rfl
  | cons d t ih => simp [indexPairs, ih]

theorem length_knnSearch (corpus : List (List Int)) (qv : List Int) (k : Nat) :
    (knnSearch corpus qv k).length = min k corpus.length := by
  simp [knnSearch, List.length_take, List.length_insertionSort,
    length_indexPairs, List.length_map]

theorem length_buildResults (texts : List String) (i : Nat) (hits : List (Int × Nat)) :
    (buildResults texts i hits).length = hits.length := by
  induction hits generalizing i with
  | nil => rfl
  | cons h t ih => cases h; simp [buildResults, ih]

/-- C2: the retriever returns (without error) exactly `min top_k corpusSize`
    passages once the embedder has produced a query vector; a `top_k` larger
    than the corpus just yields a shorter result. -/
theorem search_similar_length (embed : String → Except String (List Int))
    (texts : List String) (corpus : List (List Int)) (query : String)
    (top_k : Nat) (qv : List Int) (hq : embed query = .ok qv) (_htk : 0 < top_k) :
    search_similar embed texts corpus query top_k
        = .ok (search_similar_core texts corpus qv top_k)
      ∧ (search_similar_core texts corpus qv top_k).length = min top_k corpus.length := by
  refine ⟨by simp [search_similar, hq, Except.map], ?_⟩
  simp [search_similar_core, length_buildResults, length_knnSearch]

/-- Witness for C2: a three-vector corpus queried with top_k = 5 yields
    exactly three passages. -/
theorem search_similar_length_witness :
    search_similar (fun _ => .ok [0]) ["a", "b", "c"] [[1], [3], [2]] "q" 5
        = .ok (search_similar_core ["a", "b", "c"] [[1], [3], [2]] [0] 5)
      ∧ (search_similar_core ["a", "b", "c"] [[1], [3], [2]] [0] 5).length = min 5 3 :=
  search_similar_length (fun _ => .ok [0]) ["a", "b", "c"] [[1], [3], [2]] "q" 5 [0]
    rfl (by decide)

theorem map_distance_buildResults (texts : List String) (i : Nat)
    (hits : List (Int × Nat)) :
    (buildResults texts i hits).map RetrievedPassage.distance = hits.map Prod.fst := by
  induction hits generalizing i with
  | nil => rfl
  | cons h t ih => cases h; simp [buildResults, ih]

theorem rank_buildResults (texts : List String) (i : Nat)
    (hits : List (Int × Nat)) :
    ∀ j, j < hits.length →
      ((buildResults texts i hits).getD j default).rank = i + j + 1 := by
  induction hits generalizing i with
  | nil => intro j hj; exact absurd hj (by simp)
  | cons h t ih =>
    intro j hj
    cases h with
    | mk d idx =>
      cases j with
      | zero => rfl
      | succ j =>
        have := ih (i + 1) j (by simpa using Nat.lt_of_succ_lt_succ hj)
        simpa [buildResults, Nat.add_assoc, Nat.add_comm, Nat.add_left_comm] using this

theorem sorted_knnSearch (corpus : List (List Int)) (qv : List Int) (k : Nat) :
    List.Sorted distLe (knnSearch corpus qv k) :=
  List.Pairwise.sublist (List.take_sublist _ _)
    (List.sorted_insertionSort distLe _)

/-- C8: the retrieved sequence has non-decreasing distances and each rank
    equals its 1-based position. -/
theorem search_similar_sorted (embed : String → Except String (List Int))
    (texts : List String) (corpus : List (List Int)) (query : String)
    (top_k : Nat) (qv : List Int) (hq : embed query = .ok qv) :
    search_similar embed texts corpus query top_k
        = .ok (search_similar_core texts corpus qv top_k)
      ∧ List.Sorted (· ≤ ·)
          ((search_similar_core texts corpus qv top_k).map RetrievedPassage.distance)
      ∧ ∀ j, j < (search_similar_core texts corpus qv top_k).length →
          ((search_similar_core texts corpus qv top_k).getD j default).rank = j + 1 := by
  refine ⟨by simp [search_similar, hq, Except.map], ?_, ?_⟩
  · rw [search_similar_core, map_distance_buildResults]
    exact List.Pairwise.map Prod.fst (fun _ _ h => h) (sorted_knnSearch corpus qv top_k)
  · intro j hj
    have hl : j < (knnSearch corpus qv top_k).length := by
      simpa [search_similar_core, length_buildResults] using hj
    simpa using rank_buildResults texts 0 (knnSearch corpus qv top_k) j hl

/-- Witness for C8 on a concrete three-vector corpus: sortedness holds and
    the second passage has rank 2. -/
theorem search_similar_sorted_witness :
    List.Sorted (· ≤ ·)
        ((search_similar_core ["a", "b", "c"] [[1], [3], [2]] [0] 5).map
          RetrievedPassage.distance)
      ∧ ((search_similar_core ["a", "b", "c"] [[1], [3], [2]] [0] 5).getD 1 default).rank = 2 :=
  ⟨(search_similar_sorted (fun _ => .ok [0]) ["a", "b", "c"] [[1], [3], [2]] "q" 5 [0] rfl).2.1,
   (search_similar_sorted (fun _ => .ok [0]) ["a", "b", "c"] [[1], [3], [2]] "q" 5 [0] rfl).2.2
     1 (by decide)⟩

/-! ### RAG assembler (src/rag.py) -/

theorem isPrefixOf_append_self (p b : List Char) : p.isPrefixOf (p ++ b) = true := by
  induction p with
  | nil => simp [List.isPrefixOf]
  | cons c t ih => simp [List.isPrefixOf, ih]

theorem listContains_mid (p a b : List Char) : listContains p (a ++ p ++ b) = true := by
  induction a with
  | nil =>
    cases p with
    | nil => cases b <;> simp [listContains]
    | cons c t => simp [listContains, isPrefixOf_append_self]
  | cons x xs ih =>
    have hstep : listContains p ((x :: xs) ++ p ++ b)
        = (p.isPrefixOf ((x :: xs) ++ p ++ b) || listContains p (xs ++ p ++ b)) := rfl
    rw [hstep, ih, Bool.or_true]

theorem strContains_mid (a p b : String) : strContains (a ++ p ++ b) p = true := by
  simpa [strContains, String.data_append] using listContains_mid p.data a.data b.data

/-- Fixed text before the context in the rag prompt. -/
def ragPre : String :=
  "\nYou are a crime data assistant for Los Angeles crime records.\nAnswer ONLY using the context below. Be specific and cite details from the records.\n\nContext (Top matching crime records):\n"

/-- Fixed text between the context and the question in the rag prompt. -/
def ragMid : String := "\n\nQuestion:\n"

/-- Fixed text after the question in the rag prompt. -/
def ragPost : String := "\n\nAnswer:"

/-- The completion prompt built by `rag_answer`: context and question
    embedded verbatim between the fixed instruction texts. -/
def rag_prompt (context question : String) : String :=
  ragPre ++ context ++ ragMid ++ question ++ ragPost

/-- `rag_answer`: retrieve the top 5 passages for the question, join their
    texts with a blank line into the context, send a single completion
    prompt; retriever and completion failures propagate. -/
def rag_answer (searchSim : String → Nat → Except String (List RetrievedPassage))
    (queryOllama : String → Except String String)
    (question : String) : Except String String := do
  let context_results ← searchSim question 5
  let context := joinSep "\n\n" (context_results.map RetrievedPassage.text)
  queryOllama (rag_prompt context question)

/-- C6: on retrieval success, `rag_answer` is exactly one completion call on
    the prompt that embeds the blank-line-joined passage texts and the
    question verbatim, returned unmodified; zero passages give an empty
    context and the prompt is still sent. -/
theorem rag_answer_assembly
    (searchSim : String → Nat → Except String (List RetrievedPassage))
    (queryOllama : String → Except String String) (question : String)
    (ps : List RetrievedPassage) (h : searchSim question 5 = .ok ps) :
    rag_answer searchSim queryOllama question
        = queryOllama (rag_prompt (joinSep "\n\n" (ps.map RetrievedPassage.text)) question)
      ∧ strContains
          (rag_prompt (joinSep "\n\n" (ps.map RetrievedPassage.text)) question)
          (joinSep "\n\n" (ps.map RetrievedPassage.text)) = true
      ∧ strContains
          (rag_prompt (joinSep "\n\n" (ps.map RetrievedPassage.text)) question)
          question = true
      ∧ (ps = [] → joinSep "\n\n" (ps.map RetrievedPassage.text) = "") := by
  refine ⟨?_, ?_, ?_, ?_⟩
  · simp [rag_answer, h, bind, Except.bind]
  · simpa [rag_prompt, String.append_assoc] using
      strContains_mid ragPre (joinSep "\n\n" (ps.map RetrievedPassage.text))
        (ragMid ++ question ++ ragPost)
  · simpa [rag_prompt, String.append_assoc] using
      strContains_mid (ragPre ++ joinSep "\n\n" (ps.map RetrievedPassage.text) ++ ragMid)
        question ragPost
  · intro hps; subst hps; rfl

/-- Witness for C6 with a retriever stubbed to return zero passages: the
    completion client is still called once, on the empty-context prompt. -/
theorem rag_answer_assembly_witness :
    rag_answer (fun _ _ => .ok []) (fun p => .ok p) "qq"
        = (fun p => (.ok p : Except String String))
            (rag_prompt (joinSep "\n\n" (([] : List RetrievedPassage).map RetrievedPassage.text)) "qq")
      ∧ strContains
          (rag_prompt (joinSep "\n\n" (([] : List RetrievedPassage).map RetrievedPassage.text)) "qq")
          (joinSep "\n\n" (([] : List RetrievedPassage).map RetrievedPassage.text)) = true
      ∧ strContains
          (rag_prompt (joinSep "\n\n" (([] : List RetrievedPassage).map RetrievedPassage.text)) "qq")
          "qq" = true
      ∧ (([] : List RetrievedPassage) = [] →
          joinSep "\n\n" (([] : List RetrievedPassage).map RetrievedPassage.text) = "") :=
  rag_answer_assembly (fun _ _ => .ok []) (fun p => .ok p) "qq" [] rfl

/-! ### Web search wrapper (src/tools/duckduckgo_search.py) -/

/-- One raw result dictionary from the search engine; an absent key is
    `none` (dictionary `get` with a default). -/
structure SearchHit where
  title : Option String
  body : Option String
  href : Option String
deriving Repr, DecidableEq

/-- The per-result formatting of `live_search`. -/
def formatHit (idx : Nat) (r : SearchHit) : String :=
  "[" ++ toString idx ++ "] " ++ r.title.getD "No title" ++ "\n"
    ++ r.body.getD "No description" ++ "\nSource: " ++ r.href.getD "" ++ "\n"

/-- The formatting loop of `live_search` (enumerate starting at 1). -/
def formatHits : Nat → List SearchHit → List String
  | _, [] => []
  | i, r :: rest => formatHit i r :: formatHits (i + 1) rest

/-- `live_search`: query the engine; an exception is caught and rendered as
    an error string, zero results become a placeholder string, otherwise the
    formatted blocks are returned. The function never fails. -/
def live_search (ddgsText : String → Nat → Except String (List SearchHit))
    (query : String) (max_results : Nat) : List String :=
  match ddgsText query max_results with
  | .error e => ["Error performing web search: " ++ e]
  | .ok [] => ["No web results found for your query."]
  | .ok (r :: rest) => formatHits 1 (r :: rest)

/-! ### Structured-data client (src/tools/student_api.py) -/

/-- Result of one statement execution at the database; the rows the source
    renders as dictionary strings are carried already rendered, next to the
    cursor rowcount. -/
structure ExecOutcome where
  rows : List String
  rowcount : Int
deriving Repr, DecidableEq

/-- `execute_sql_query` over a database collaborator `dbExec` mapping a
    statement and a store state to the post-transaction state and either an
    outcome or the raised error (the enclosing connection scope has already
    rolled back in the error case, see `dbExchange`). The statement is
    forwarded unchecked; only after execution is the SELECT prefix tested,
    and solely to pick the result formatting. -/
def execute_sql_query {σ : Type} (dbExec : String → σ → σ × Except String ExecOutcome)
    (db : σ) (sql_query : String) : σ × String :=
  match dbExec sql_query db with
  | (db', .error e) => (db', "Error executing query: " ++ e)
  | (db', .ok out) =>
    if strStartsWith (pyUpper (pyStrip sql_query)) "SELECT" then
      if out.rows.isEmpty then (db', "No results found.")
      else (db', joinSep "\n" out.rows)
    else (db', "Query executed successfully. Rows affected: " ++ toString out.rowcount)

/-- The markdown-fence and lowercase-sql-prefix cleanup applied by
    `query_students_natural` to the model output. -/
def cleanSql (raw : String) : String :=
  let s := pyStrip raw
  let s :=
    if strStartsWith s "```" then
      pyStrip (joinSep "\n" ((pySplitLines s).filter (fun l => !strStartsWith l "```")))
    else s
  if strStartsWith (pyLower s) "sql" then pyStrip ⟨s.data.drop 3⟩ else s

/-- The schema block embedded in the SQL-generation prompt. -/
def schema_info : String :=
  "\n    Database Schema:\n    Table: students\n    Columns:\n    - user_id (INTEGER, PRIMARY KEY)\n    - name (VARCHAR)\n    - age (INTEGER)\n    - course (VARCHAR)\n    "

/-- The natural-language-to-SQL prompt of `query_students_natural`. -/
def sqlGenPrompt (question : String) : String :=
  "You are a SQL expert. Convert the following natural language question into a PostgreSQL query.\n\n"
    ++ schema_info
    ++ "\n\nRules:\n1. Return ONLY the SQL query, nothing else\n2. Use proper PostgreSQL syntax\n3. For counting, use COUNT(*)\n4. For filtering by course, use ILIKE for case-insensitive matching\n5. Always use safe queries (SELECT only, no DELETE/DROP/etc.)\n6. If asking for \"students\", select: user_id, name, age, course\n\nQuestion: "
    ++ question ++ "\n\nSQL Query:"

/-- The answer-formatting prompt of `query_students_natural`. -/
def answerPrompt (question raw_results : String) : String :=
  "Based on the database query results below, provide a clear, natural language answer to the question.\n\nQuestion: "
    ++ question ++ "\n\nQuery Results:\n" ++ raw_results
    ++ "\n\nProvide a concise, helpful answer:"

/-- `query_students_natural`: generate a statement with the completion
    model, clean it, execute it via `execute_sql_query`, then ask the model
    to phrase the results. Every model failure inside the scope is caught
    and rendered as an error answer: the function always returns a string. -/
def query_students_natural {σ : Type}
    (queryOllama : String → Except String String)
    (dbExec : String → σ → σ × Except String ExecOutcome)
    (db : σ) (question : String) : σ × String :=
  match queryOllama (sqlGenPrompt question) with
  | .error e => (db, "I encountered an error processing your question: " ++ e)
  | .ok raw =>
    let sql_query := cleanSql raw
    let res := execute_sql_query dbExec db sql_query
    match queryOllama (answerPrompt question res.2) with
    | .error e => (res.1, "I encountered an error processing your question: " ++ e)
    | .ok answer => (res.1, answer)

/-! ### Query router (src/mcp/tool_router.py) -/

/-- The direct prompt of `query_ollama_direct`. -/
def generalPrompt (question : String) : String :=
  "You are a helpful AI assistant. Answer the following question clearly and accurately.\n\nQuestion: "
    ++ question ++ "\n\nAnswer:"

/-- `query_ollama_direct`: one completion call, failures propagate. -/
def query_ollama_direct (queryOllama : String → Except String String)
    (question : String) : Except String String :=
  queryOllama (generalPrompt question)

/-- `route_question`: classify, then dispatch to exactly the strategy of
    the classified intent. The student path threads the store state; only
    the rag and general paths can fail (their collaborator failures
    propagate unchanged); the student and web paths always return a
    string. -/
def route_question {σ : Type} (year month : String)
    (searchSim : String → Nat → Except String (List RetrievedPassage))
    (queryOllama : String → Except String String)
    (ddgsText : String → Nat → Except String (List SearchHit))
    (dbExec : String → σ → σ × Except String ExecOutcome)
    (db : σ) (question : String) : σ × Except String (String × String) :=
  let intent := classify_intent year month question
  if intent = "student" then
    let res := query_students_natural queryOllama dbExec db question
    (res.1, .ok (res.2, "student"))
  else if intent = "web" then
    (db, .ok (joinSep "\n" (live_search ddgsText question 5), "web"))
  else if intent = "rag" then
    (db, (rag_answer searchSim queryOllama question).map (fun a => (a, "rag")))
  else
    (db, (query_ollama_direct queryOllama question).map (fun a => (a, "general")))

/-! ### HTTP endpoint and cache policy (src/main.py) -/

/-- The response record of the ask endpoint. -/
structure AskResult where
  source : String
  answer : String
  cached : Bool
deriving Repr, DecidableEq

/-- One cache write, as passed to `setex(key, ttl, value)`. -/
structure CacheWrite where
  key : String
  ttl : Nat
  value : String
deriving Repr, DecidableEq

/-- The TTL table of `ask`: a dictionary lookup with default 1800. -/
def cache_ttl (source_type : String) : Nat :=
  if source_type = "student" then 600
  else if source_type = "web" then 300
  else if source_type = "rag" then 1800
  else if source_type = "general" then 900
  else 1800

/-- `ask`: read the cache first (Python truthiness: a missing key and an
    empty cached string both fail the `if cached` test), otherwise route,
    write the answer back with the TTL of the source, and answer. Returns
    the response and the cache write performed, if any; routing failures
    propagate. The cache itself is the spec-modelled `get` of the cache
    collaborator: present value or absent. -/
def ask (cacheGet : String → Option String)
    (route : String → Except String (String × String))
    (question : String) : Except String (AskResult × Option CacheWrite) :=
  let onMiss : Except String (AskResult × Option CacheWrite) :=
    (route question).map (fun p =>
      ({ source := p.2, answer := p.1, cached := false },
        some { key := question, ttl := cache_ttl p.2, value := p.1 }))
  match cacheGet question with
  | none => onMiss
  | some v =>
    if v = "" then onMiss
    else .ok ({ source := "redis-cache", answer := v, cached := true }, none)

/-! ### Pooled connection scope (src/db.py, DatabaseConnection) -/

/-- Connection lifecycle events of one `DatabaseConnection` scope. -/
inductive DbEvent where
  | acquire
  | commit
  | rollback
  | cursorClose
  | release
deriving Repr, DecidableEq, BEq

/-- Trace semantics of one `with DatabaseConnection() as cursor:` scope:
    entering acquires a pooled connection and opens a cursor; exiting
    commits on success or rolls back on an exception, closes the cursor,
    releases the connection back to the pool, and returns False so that the
    exception propagates to the caller. -/
def dbExchange {α : Type} (body : Except String α) : Except String α × List DbEvent :=
  match body with
  | .ok a => (.ok a, [.acquire, .commit, .cursorClose, .release])
  | .error e => (.error e, [.acquire, .rollback, .cursorClose, .release])

/-! ### Theorems on routing, caching, the structured path and the pool -/

/-- C3 counterexample: "what is the weather today" routes to the web
    strategy; with the search engine failing, the router still returns a
    successful answer holding the error text — the web-search wrapper
    catches its collaborator failure instead of letting it propagate. -/
theorem route_failure_counterexample :
    (route_question "2026" "October" (fun _ _ => .ok []) (fun _ => .error "down")
        (fun _ _ => .error "boom") (fun _ (db : List Nat) => (db, .ok ⟨[], 0⟩))
        [] "what is the weather today").2
      = .ok ("Error performing web search: boom", "web") := rfl

/-- C3 amended: collaborator failures on the rag and general paths
    propagate unchanged as the failure of the router call and the router
    never substitutes an answer or switches strategy; the web and
    structured paths, however, catch failures inside their collaborator
    wrappers and return error-text strings as ordinary answers. -/
theorem route_failure_propagation {σ : Type} (year month : String)
    (searchSim : String → Nat → Except String (List RetrievedPassage))
    (queryOllama : String → Except String String)
    (ddgsText : String → Nat → Except String (List SearchHit))
    (dbExec : String → σ → σ × Except String ExecOutcome)
    (db : σ) (question : String) :
    (classify_intent year month question = "rag" →
        (∀ e, searchSim question 5 = .error e →
          (route_question year month searchSim queryOllama ddgsText dbExec db question).2
            = .error e)
      ∧ ∀ ps e, searchSim question 5 = .ok ps →
          queryOllama (rag_prompt (joinSep "\n\n" (ps.map RetrievedPassage.text)) question)
              = .error e →
          (route_question year month searchSim queryOllama ddgsText dbExec db question).2
            = .error e)
    ∧ (classify_intent year month question = "general" →
        ∀ e, queryOllama (generalPrompt question) = .error e →
          (route_question year month searchSim queryOllama ddgsText dbExec db question).2
            = .error e)
    ∧ (classify_intent year month question = "web" →
        (route_question year month searchSim queryOllama ddgsText dbExec db question).2
          = .ok (joinSep "\n" (live_search ddgsText question 5), "web"))
    ∧ (classify_intent year month question = "student" →
        (route_question year month searchSim queryOllama ddgsText dbExec db question).2
          = .ok ((query_students_natural queryOllama dbExec db question).2, "student")) := by
  refine ⟨?_, ?_, ?_, ?_⟩
  · intro h
    refine ⟨?_, ?_⟩
    · intro e he
      simp [route_question, h, rag_answer, he, bind, Except.bind, Except.map]
    · intro ps e hps holl
      simp [route_question, h, rag_answer, hps, holl, bind, Except.bind, Except.map]
  · intro h e he
    simp [route_question, h, query_ollama_direct, he, Except.map]
  · intro h
    simp [route_question, h]
  · intro h
    simp [route_question, h]

/-- Witness for the amended C3: a rag-classified question with a failing
    retriever makes the whole router call fail with that same error. -/
theorem route_failure_propagation_witness :
    (route_question "2026" "October" (fun _ _ => .error "down") (fun _ => .ok "x")
        (fun _ _ => .ok []) (fun _ (db : List Nat) => (db, .ok ⟨[], 0⟩))
        [] "crime stats").2 = .error "down" :=
  ((route_failure_propagation "2026" "October" (fun _ _ => .error "down") (fun _ => .ok "x")
      (fun _ _ => .ok []) (fun _ (db : List Nat) => (db, .ok ⟨[], 0⟩))
      [] "crime stats").1 (by decide)).1 "down" rfl

/-- Completion-model stub that answers the SQL-generation prompt with a
    DELETE statement and any other prompt with a fixed phrase. -/
def mutatingLlm : String → Except String String := fun p =>
  if strStartsWith p "You are a SQL expert" then
    .ok "DELETE FROM students WHERE user_id = 3;"
  else .ok "Done"

/-- Database collaborator over a store of student ids: the DELETE statement
    removes student 3, any other statement leaves the store unchanged. -/
def deletingDb : String → List Nat → List Nat × Except String ExecOutcome := fun sql db =>
  if sql = "DELETE FROM students WHERE user_id = 3;" then (db.erase 3, .ok ⟨[], 1⟩)
  else (db, .ok ⟨[], 0⟩)

/-- C4: the structured path executes whatever statement the model returns,
    with no read-only guard. For the question "delete student with id 3"
    (routed to the structured path) and a model emitting a DELETE, the
    statement reaches the store and mutates it: student 3 is removed, and
    the non-SELECT branch of `execute_sql_query` reports the affected rows
    instead of rejecting the statement. -/
theorem structured_path_executes_mutation :
    route_question "2026" "October" (fun _ _ => .ok []) mutatingLlm (fun _ _ => .ok [])
        deletingDb [1, 2, 3] "delete student with id 3"
      = ([1, 2], .ok ("Done", "student"))
    ∧ execute_sql_query deletingDb [1, 2, 3] "DELETE FROM students WHERE user_id = 3;"
      = ([1, 2], "Query executed successfully. Rows affected: 1") := ⟨rfl, rfl⟩

/-- C5: on a cache miss that produces an answer, `ask` performs exactly one
    cache write, keyed by the question and holding the answer, with a TTL
    that is a function of the source label alone: 600 for student, 300 for
    web, 1800 for rag, 900 for general, 1800 for anything unrecognized. -/
theorem ask_cache_ttl_policy (cacheGet : String → Option String)
    (route : String → Except String (String × String))
    (question answer source : String)
    (hmiss : cacheGet question = none)
    (hroute : route question = .ok (answer, source)) :
    ask cacheGet route question
        = .ok ({ source := source, answer := answer, cached := false },
            some { key := question, ttl := cache_ttl source, value := answer })
      ∧ cache_ttl "student" = 600 ∧ cache_ttl "web" = 300
      ∧ cache_ttl "rag" = 1800 ∧ cache_ttl "general" = 900
      ∧ (source ∉ ["student", "web", "rag", "general"] → cache_ttl source = 1800) := by
  refine ⟨?_, rfl, rfl, rfl, rfl, ?_⟩
  · simp [ask, hmiss, hroute, Except.map]
  · intro hs
    simp only [List.mem_cons, List.not_mem_nil, or_false, not_or] at hs
    obtain ⟨h1, h2, h3, h4⟩ := hs
    simp [cache_ttl, h1, h2, h3, h4]

/-- Witness for C5 with an unrecognized source label, exercising the
    defensive default TTL. -/
theorem ask_cache_ttl_policy_witness :
    ask (fun _ => none) (fun _ => .ok ("A", "zzz")) "q"
        = .ok ({ source := "zzz", answer := "A", cached := false },
            some { key := "q", ttl := cache_ttl "zzz", value := "A" })
      ∧ cache_ttl "student" = 600 ∧ cache_ttl "web" = 300
      ∧ cache_ttl "rag" = 1800 ∧ cache_ttl "general" = 900
      ∧ ("zzz" ∉ ["student", "web", "rag", "general"] → cache_ttl "zzz" = 1800) :=
  ask_cache_ttl_policy (fun _ => none) (fun _ => .ok ("A", "zzz")) "q" "A" "zzz" rfl rfl

/-- C7 counterexample: an unexpired cache entry whose stored value is the
    empty string is not returned as a hit — the `if cached` truthiness test
    treats it as a miss, so the question is re-routed and answered with
    cached = false. -/
theorem ask_cache_hit_counterexample :
    ask (fun _ => some "") (fun _ => .ok ("ANS", "general")) "hi"
      = .ok ({ source := "general", answer := "ANS", cached := false },
          some { key := "hi", ttl := 900, value := "ANS" }) := rfl

/-- C7 amended: when the unexpired cached value is non-empty, `ask` answers
    straight from the cache with source "redis-cache" and cached = true,
    performs no cache write, and its result does not depend on the routing
    function at all — so neither the classifier nor any strategy runs. -/
theorem ask_cache_hit (cacheGet : String → Option String)
    (route : String → Except String (String × String))
    (question v : String) (hv : cacheGet question = some v) (hne : v ≠ "") :
    ask cacheGet route question
      = .ok ({ source := "redis-cache", answer := v, cached := true }, none) := by
  simp [ask, hv, hne]

/-- Witness for the amended C7: a cached non-empty value is served with the
    cache-hit label even though the route function only fails. -/
theorem ask_cache_hit_witness :
    ask (fun _ => some "42") (fun _ => .error "never called") "hi"
      = .ok ({ source := "redis-cache", answer := "42", cached := true }, none) :=
  ask_cache_hit (fun _ => some "42") (fun _ => .error "never called") "hi" "42" rfl
    (by decide)

/-- C9: one database exchange acquires a pooled connection exactly once and
    releases it exactly once, release is the final event on every exit
    path, the body outcome (including a raised exception) passes through
    unchanged, a successful body commits before the release, and a failing
    body rolls back before the release. -/
theorem db_scoped_release {α : Type} (body : Except String α) :
    (dbExchange body).1 = body
      ∧ ((dbExchange body).2).count .acquire = 1
      ∧ ((dbExchange body).2).count .release = 1
      ∧ ((dbExchange body).2).getLast? = some .release
      ∧ (∀ a, body = .ok a →
          (dbExchange body).2 = [.acquire, .commit, .cursorClose, .release])
      ∧ (∀ e, body = .error e →
          (dbExchange body).2 = [.acquire, .rollback, .cursorClose, .release]) := by
  cases body with
  | error e =>
    refine ⟨rfl, rfl, rfl, rfl, ?_, ?_⟩
    · intro a ha; exact absurd ha (by simp)
    · intro e' _; rfl
  | ok a =>
    refine ⟨rfl, rfl, rfl, rfl, ?_, ?_⟩
    · intro a' _; rfl
    · intro e ha; exact absurd ha (by simp)

/-- Witness for C9 at a successful and at a failing body. -/
theorem db_scoped_release_witness :
    (dbExchange (.ok 0 : Except String Nat)).2
        = [.acquire, .commit, .cursorClose, .release]
      ∧ (dbExchange (.error "x" : Except String Nat)).2
        = [.acquire, .rollback, .cursorClose, .release] :=
  ⟨(db_scoped_release (.ok 0 : Except String Nat)).2.2.2.2.1 0 rfl,
   (db_scoped_release (.error "x" : Except String Nat)).2.2.2.2.2 "x" rfl⟩

/-- C10: a question classified Live is answered with exactly the web-search
    blocks joined by single newlines, the answer does not depend on the
    completion client (no model call on this path), and on a cache miss it
    is cached verbatim with the Live TTL of 300 seconds. -/
theorem web_path_verbatim {σ : Type} (year month : String)
    (searchSim : String → Nat → Except String (List RetrievedPassage))
    (queryOllama queryOllama' : String → Except String String)
    (ddgsText : String → Nat → Except String (List SearchHit))
    (dbExec : String → σ → σ × Except String ExecOutcome)
    (db : σ) (question : String)
    (h : classify_intent year month question = "web") :
    (route_question year month searchSim queryOllama ddgsText dbExec db question).2
        = .ok (joinSep "\n" (live_search ddgsText question 5), "web")
      ∧ route_question year month searchSim queryOllama ddgsText dbExec db question
        = route_question year month searchSim queryOllama' ddgsText dbExec db question
      ∧ ask (fun _ => none)
          (fun q => (route_question year month searchSim queryOllama ddgsText dbExec db q).2)
          question
        = .ok ({ source := "web",
                 answer := joinSep "\n" (live_search ddgsText question 5),
                 cached := false },
            some { key := question, ttl := 300,
                   value := joinSep "\n" (live_search ddgsText question 5) }) := by
  refine ⟨?_, ?_, ?_⟩
  · simp [route_question, h]
  · simp [route_question, h]
  · simp [ask, route_question, h, Except.map, cache_ttl]

/-- Witness for C10: a failing search engine on a Live question yields the
    error text verbatim as the answer, and it is cached with TTL 300. -/
theorem web_path_verbatim_witness :
    (route_question "2026" "October" (fun _ _ => .ok []) (fun _ => .ok "x")
        (fun _ _ => .error "boom") (fun _ (db : List Nat) => (db, .ok ⟨[], 0⟩))
        [] "what is the weather today").2
        = .ok (joinSep "\n"
            (live_search (fun _ _ => .error "boom") "what is the weather today" 5), "web")
      ∧ route_question "2026" "October" (fun _ _ => .ok []) (fun _ => .ok "x")
          (fun _ _ => .error "boom") (fun _ (db : List Nat) => (db, .ok ⟨[], 0⟩))
          [] "what is the weather today"
        = route_question "2026" "October" (fun _ _ => .ok []) (fun _ => .error "off")
            (fun _ _ => .error "boom") (fun _ (db : List Nat) => (db, .ok ⟨[], 0⟩))
            [] "what is the weather today"
      ∧ ask (fun _ => none)
          (fun q => (route_question "2026" "October" (fun _ _ => .ok []) (fun _ => .ok "x")
            (fun _ _ => .error "boom") (fun _ (db : List Nat) => (db, .ok ⟨[], 0⟩)) [] q).2)
          "what is the weather today"
        = .ok ({ source := "web",
                 answer := joinSep "\n"
                   (live_search (fun _ _ => .error "boom") "what is the weather today" 5),
                 cached := false },
            some { key := "what is the weather today", ttl := 300,
                   value := joinSep "\n"
                     (live_search (fun _ _ => .error "boom") "what is the weather today" 5) }) :=
  web_path_verbatim "2026" "October" (fun _ _ => .ok []) (fun _ => .ok "x")
    (fun _ => .error "off") (fun _ _ => .error "boom")
    (fun _ (db : List Nat) => (db, .ok ⟨[], 0⟩)) [] "what is the weather today" (by decide)

end LlmRag
